import Mathlib

/-!
Shallow embedding of the Augur fork-risk calculator
(src/scripts/calculate-fork-risk.ts) for checking the natural-language
specification against the code.

Modelling conventions:
* JavaScript numbers are modelled as exact rationals (`ℚ`); block heights as `ℤ`.
* Wall-clock strings (`timestamp`, `nextUpdate`) are pure I/O noise and are
  omitted from the artifact record; no claim concerns them.
* Network effects are captured by a `ChainEnv` record of oracles: each RPC call
  site of the script reads one deterministic field of the environment
  (`Except String _` for calls that can throw).
* `Math.ceil(Math.log2 q)` on exact values is `Int.clog 2 q`;
  `Math.round x` is Mathlib's `round`.
-/

/-- Embeds `type RiskLevel` of the script: the four computed levels
(return type of `determineRiskLevel`). -/
inductive RiskLevel
  | low
  | moderate
  | high
  | critical
deriving DecidableEq, Repr

/-- The five-valued union type used in `ForkRiskData.riskLevel`
(`'low' | 'moderate' | 'high' | 'critical' | 'unknown'`). -/
inductive RiskLevelU
  | low
  | moderate
  | high
  | critical
  | unknown
deriving DecidableEq, Repr

/-- The inclusion of computed levels into the artifact's level union
(implicit in TypeScript's structural subtyping). -/
def RiskLevel.toU : RiskLevel → RiskLevelU
  | .low => .low
  | .moderate => .moderate
  | .high => .high
  | .critical => .critical

/-- Embeds `interface DisputeDetails` (calculate-fork-risk.ts lines 22-28). -/
structure DisputeDetails where
  marketId : String
  title : String
  disputeBondSize : ℚ
  disputeRound : ℤ
  daysRemaining : ℤ
deriving DecidableEq, Repr

/-- Embeds `interface RpcInfo` (lines 30-34). -/
structure RpcInfo where
  endpoint : Option String
  latency : Option ℕ
  fallbacksAttempted : ℕ
deriving DecidableEq, Repr

/-- Embeds `interface Metrics` (lines 36-41). -/
structure Metrics where
  largestDisputeBond : ℚ
  forkThresholdPercent : ℚ
  activeDisputes : ℕ
  disputeDetails : List DisputeDetails
deriving DecidableEq, Repr

/-- Embeds `interface Calculation` (lines 43-46). -/
structure Calculation where
  method : String
  forkThreshold : ℚ
deriving DecidableEq, Repr

/-- Embeds `interface ForkRiskData` (lines 48-58), minus the two wall-clock strings
`timestamp` and `nextUpdate`. -/
structure ForkRiskData where
  blockNumber : Option ℤ
  riskLevel : RiskLevelU
  riskPercentage : ℚ
  metrics : Metrics
  rpcInfo : RpcInfo
  calculation : Calculation
  error : Option String
deriving DecidableEq, Repr

/-- Embeds `const FORK_THRESHOLD_REP = 201715` (line 63). -/
def FORK_THRESHOLD_REP : ℚ := 201715

/-- Embeds `const PUBLIC_RPC_ENDPOINTS` (lines 66-71). -/
def PUBLIC_RPC_ENDPOINTS : List String :=
  ["https://eth.llamarpc.com",
   "https://main-light.eth.linkpool.io",
   "https://ethereum.publicnode.com",
   "https://1rpc.io/eth"]

/-- Embeds `RISK_LEVELS.LOW` (line 82; never read by `determineRiskLevel`). -/
def RISK_LEVELS_LOW : ℚ := 10

/-- Embeds `RISK_LEVELS.MODERATE` (line 83). -/
def RISK_LEVELS_MODERATE : ℚ := 25

/-- Embeds `RISK_LEVELS.HIGH` (line 84). -/
def RISK_LEVELS_HIGH : ℚ := 75

/-- Embeds `RISK_LEVELS.CRITICAL` (line 85). -/
def RISK_LEVELS_CRITICAL : ℚ := 75

/-- Embeds `function determineRiskLevel` (lines 386-391), verbatim:
`> CRITICAL` then `>= HIGH` then `>= MODERATE` else low. -/
def determineRiskLevel (forkThresholdPercent : ℚ) : RiskLevel :=
  if forkThresholdPercent > RISK_LEVELS_CRITICAL then .critical
  else if forkThresholdPercent ≥ RISK_LEVELS_HIGH then .high
  else if forkThresholdPercent ≥ RISK_LEVELS_MODERATE then .moderate
  else .low

/-- Embeds `interface RpcConnection` (lines 73-78), minus the live provider handle. -/
structure RpcConnection where
  endpoint : String
  latency : ℕ
  fallbacksAttempted : ℕ
deriving DecidableEq, Repr

/-- One decoded `DisputeCrowdsourcerCreated` event log, after the
`event.args` guard of lines 283-297 has admitted it
(`[universe, market, disputeCrowdsourcer, payoutNumerators, size, invalid]`).
Logs failing the guard are skipped by the script and never reach the
aggregation modelled here. -/
structure DisputeEvent where
  universeAddr : String
  marketAddress : String
  crowdsourcerAddr : String
  payoutNumerators : List ℤ
  bondSizeWei : ℕ
  isInvalid : Bool
deriving DecidableEq, Repr

/-- Deterministic oracle for every external effect the script performs.
Each field answers one RPC call site; `Except String _` models a call that
can throw (the `String` being the thrown message). `ethRpcUrl` is the
`ETH_RPC_URL` process environment variable. -/
structure ChainEnv where
  ethRpcUrl : Option String
  probe : String → Option ℕ
  manifest : Except String Unit
  blockNumber : Except String ℤ
  isForking : Except String Bool
  disputeBlockQuery : Except String ℤ
  queryChunk : ℤ → ℤ → Except String (List DisputeEvent)
  isFinalized : String → Except String Bool

/-- The endpoint loop of `getWorkingProvider` (lines 92-117): try each
candidate in order, counting failures; success stops with the latency and
the count so far, exhaustion throws the aggregate message. -/
def getWorkingProviderAux (probe : String → Option ℕ) :
    List String → ℕ → Except String RpcConnection
  | [], fallbacksAttempted =>
      .error ("All RPC endpoints failed (attempted " ++
        toString fallbacksAttempted ++ ")")
  | rpc :: rest, fallbacksAttempted =>
      match probe rpc with
      | some latency => .ok ⟨rpc, latency, fallbacksAttempted⟩
      | none => getWorkingProviderAux probe rest (fallbacksAttempted + 1)

/-- Embeds `async function getWorkingProvider` (lines 88-118). Note: the current
script iterates only `PUBLIC_RPC_ENDPOINTS`; it never reads `ETH_RPC_URL`
(contrast the earlier revision embedded in the methodology document, and
the repository README's "Optional Custom RPC" section). -/
def getWorkingProvider (env : ChainEnv) : Except String RpcConnection :=
  getWorkingProviderAux env.probe PUBLIC_RPC_ENDPOINTS 0

/-- Per-event processing of the aggregation loop (lines 280-361):
decode the bond (`Number(ethers.formatEther(bondSizeWei))`, exact here),
query the market's `isFinalized`; a finalized market is skipped
(`continue`), an unfinalized one gets the escalation-round heuristic
`Math.max(1, Math.ceil(Math.log2(bondSizeRep / 625)))` (here
`max 1 (Int.clog 2 _)`), and a failed lookup keeps the defaults
`disputeRound = 1`, `daysRemaining = 7` instead of discarding the record. -/
def processEvent (env : ChainEnv) (e : DisputeEvent) : Option DisputeDetails :=
  let bondSizeRep : ℚ := (e.bondSizeWei : ℚ) / 10 ^ 18
  let marketTitle : String := "Market " ++ e.marketAddress.take 10 ++ "..."
  match env.isFinalized e.marketAddress with
  | .ok true => none
  | .ok false =>
      some { marketId := e.marketAddress, title := marketTitle,
             disputeBondSize := bondSizeRep,
             disputeRound := max 1 (Int.clog 2 (bondSizeRep / 625)),
             daysRemaining := 7 }
  | .error _ =>
      some { marketId := e.marketAddress, title := marketTitle,
             disputeBondSize := bondSizeRep,
             disputeRound := 1,
             daysRemaining := 7 }

/-- The chunk starting points of the loop
`for (let start = fromBlock; start < currentBlock; start += 1000)`
(line 240): `fromBlock, fromBlock + 1000, ...` while `< currentBlock`. -/
def chunkStarts (fromBlock currentBlock : ℤ) : List ℤ :=
  (List.range (((currentBlock - fromBlock).toNat + 999) / 1000)).map
    (fun i => fromBlock + 1000 * (i : ℤ))

/-- The chunked event collection of lines 236-270: each chunk
`[start, min (start + 999) currentBlock]` is queried; a throwing chunk is
caught and skipped (`catch (chunkError) { console.warn ... }`), a
succeeding one has its events appended. -/
def collectedEvents (queryChunk : ℤ → ℤ → Except String (List DisputeEvent))
    (currentBlock : ℤ) : List DisputeEvent :=
  let fromBlock := currentBlock - 7 * 7200
  (chunkStarts fromBlock currentBlock).foldl
    (fun acc s =>
      match queryChunk s (min (s + 1000 - 1) currentBlock) with
      | .ok chunkEvents => acc ++ chunkEvents
      | .error _ => acc)
    []

/-- Descending order on bond size: the comparator
`(a, b) => b.disputeBondSize - a.disputeBondSize` of line 365. -/
def bondGE (a b : DisputeDetails) : Prop :=
  b.disputeBondSize ≤ a.disputeBondSize

instance : DecidableRel bondGE :=
  fun a b => (inferInstance : Decidable (b.disputeBondSize ≤ a.disputeBondSize))

instance : IsTotal DisputeDetails bondGE :=
  ⟨fun a b =>
    show b.disputeBondSize ≤ a.disputeBondSize ∨ a.disputeBondSize ≤ b.disputeBondSize
    from le_total _ _⟩

instance : IsTrans DisputeDetails bondGE :=
  ⟨fun _ _ _ hab hbc => le_trans hbc hab⟩

/-- Embeds `async function getActiveDisputes` (lines 226-377). The initial
`provider.getBlockNumber()` (line 231) is the first statement of the outer
`try`; if it throws, the outer `catch` (lines 370-376) returns `[]`.
Otherwise events are collected chunkwise, decoded and filtered
per event, sorted descending by bond size, and capped at 10. -/
def getActiveDisputes (env : ChainEnv) : List DisputeDetails :=
  match env.disputeBlockQuery with
  | .error _ => []
  | .ok currentBlock =>
      let events := collectedEvents env.queryChunk currentBlock
      let disputes := events.filterMap (processEvent env)
      (List.insertionSort bondGE disputes).take 10

/-- Embeds `function getLargestDisputeBond` (lines 379-382):
`Math.max(...disputes.map(d => d.disputeBondSize))`, `0` when empty. -/
def getLargestDisputeBond : List DisputeDetails → ℚ
  | [] => 0
  | d :: ds => ds.foldl (fun m x => max m x.disputeBondSize) d.disputeBondSize

/-- Embeds `function getForkingResult` (lines 393-424): the fixed terminal
artifact written when `universe.isForking()` reports `true`. -/
def getForkingResult (blockNumber : ℤ) (connection : RpcConnection) :
    ForkRiskData :=
  { blockNumber := some blockNumber
    riskLevel := .critical
    riskPercentage := 100
    metrics :=
      { largestDisputeBond := FORK_THRESHOLD_REP
        forkThresholdPercent := 100
        activeDisputes := 0
        disputeDetails :=
          [{ marketId := "FORKING"
             title := "Universe is currently forking"
             disputeBondSize := FORK_THRESHOLD_REP
             disputeRound := 99
             daysRemaining := 0 }] }
    rpcInfo :=
      { endpoint := some connection.endpoint
        latency := some connection.latency
        fallbacksAttempted := connection.fallbacksAttempted }
    calculation := { method := "Fork Detected", forkThreshold := FORK_THRESHOLD_REP }
    error := none }

/-- Embeds `function getErrorResult` (lines 426-449): the explicit error-state
artifact. Note `fallbacksAttempted` is the literal `0` of line 442. -/
def getErrorResult (errorMessage : String) : ForkRiskData :=
  { blockNumber := none
    riskLevel := .unknown
    riskPercentage := 0
    metrics :=
      { largestDisputeBond := 0
        forkThresholdPercent := 0
        activeDisputes := 0
        disputeDetails := [] }
    rpcInfo := { endpoint := none, latency := none, fallbacksAttempted := 0 }
    calculation := { method := "Error", forkThreshold := FORK_THRESHOLD_REP }
    error := some errorMessage }

/-- The success artifact of `calculateForkRisk` (lines 183-210), built in
the non-forking branch from the aggregated disputes. -/
def successResult (env : ChainEnv) (connection : RpcConnection)
    (blockNumber : ℤ) : ForkRiskData :=
  let activeDisputes := getActiveDisputes env
  let largestDisputeBond := getLargestDisputeBond activeDisputes
  let forkThresholdPercent := largestDisputeBond / FORK_THRESHOLD_REP * 100
  { blockNumber := some blockNumber
    riskLevel := (determineRiskLevel forkThresholdPercent).toU
    riskPercentage := min 100 (max 0 forkThresholdPercent)
    metrics :=
      { largestDisputeBond := largestDisputeBond
        forkThresholdPercent := (round (forkThresholdPercent * 100) : ℚ) / 100
        activeDisputes := activeDisputes.length
        disputeDetails := activeDisputes.take 5 }
    rpcInfo :=
      { endpoint := some connection.endpoint
        latency := some connection.latency
        fallbacksAttempted := connection.fallbacksAttempted }
    calculation :=
      { method := "GitHub Actions + Public RPC", forkThreshold := FORK_THRESHOLD_REP }
    error := none }

/-- Embeds `async function calculateForkRisk` (lines 158-224): connection, then
contracts, then block height, then the forking short-circuit, then the
dispute-based scoring. Any `.error` models the corresponding `throw`
reaching the caller (the script's own `catch` at line 220 rethrows). -/
def calculateForkRisk (env : ChainEnv) : Except String ForkRiskData :=
  match getWorkingProvider env with
  | .error e => .error e
  | .ok connection =>
    match env.manifest with
    | .error e => .error e
    | .ok _ =>
      match env.blockNumber with
      | .error e => .error e
      | .ok blockNumber =>
        match env.isForking with
        | .error e => .error e
        | .ok true => .ok (getForkingResult blockNumber connection)
        | .ok false => .ok (successResult env connection blockNumber)

/-- Embeds `async function main` (lines 464-497): on success the artifact is
saved and the process exits 0; on any thrown error an error-state
artifact is saved and the process exits 1. The pair is
(persisted artifact, exit code). -/
def mainRun (env : ChainEnv) : ForkRiskData × ℕ :=
  match calculateForkRisk env with
  | .ok results => (results, 0)
  | .error e => (getErrorResult e, 1)

/-- The specification's clamp, following its words: values below the lower
bound become the lower bound, values above the upper bound the upper
bound, everything else is unchanged. -/
def clampSpec (x lo hi : ℚ) : ℚ :=
  if x ≤ lo then lo else if hi ≤ x then hi else x

/-- The risk-percentage computation of lines 183-193 as a function of the
largest bond and the threshold:
`Math.min(100, Math.max(0, bond / threshold * 100))`. -/
def riskPercentageCalc (largestDisputeBond threshold : ℚ) : ℚ :=
  min 100 (max 0 (largestDisputeBond / threshold * 100))

/-- Per-chunk contributions of the retrieval loop, chunk by chunk: a
succeeding chunk contributes its events, a throwing chunk contributes
nothing. Used to state that the fold of `collectedEvents` treats the
chunks independently. -/
def collectChunks (f : ℤ → Except String (List DisputeEvent)) :
    List ℤ → List DisputeEvent
  | [] => []
  | s :: rest =>
      (match f s with | .ok es => es | .error _ => []) ++ collectChunks f rest

/-- The same environment with every throwing chunk query replaced by an
empty successful one; comparing runs against it expresses that a chunk
failure is equivalent to that chunk merely having no events. -/
def neutralizeChunks (env : ChainEnv) : ChainEnv :=
  { env with
    queryChunk := fun s e =>
      match env.queryChunk s e with
      | .ok es => .ok es
      | .error _ => .ok [] }

/-- Environment in which every RPC liveness probe fails. -/
def envAllFail : ChainEnv :=
  { ethRpcUrl := none
    probe := fun _ => none
    manifest := .ok ()
    blockNumber := .ok 0
    isForking := .ok false
    disputeBlockQuery := .ok 0
    queryChunk := fun _ _ => .ok []
    isFinalized := fun _ => .ok false }

/-- Environment with a healthy, non-placeholder `ETH_RPC_URL` override and
every endpoint (the override included) answering its probe. -/
def envOverride : ChainEnv :=
  { ethRpcUrl := some "https://my-node.example/rpc"
    probe := fun _ => some 10
    manifest := .ok ()
    blockNumber := .ok 0
    isForking := .ok false
    disputeBlockQuery := .ok 0
    queryChunk := fun _ _ => .ok []
    isFinalized := fun _ => .ok false }

/-- Healthy environment whose universe contract reports an active fork and
whose dispute query window is empty. -/
def envForkEmpty : ChainEnv :=
  { ethRpcUrl := none
    probe := fun _ => some 5
    manifest := .ok ()
    blockNumber := .ok 21000000
    isForking := .ok true
    disputeBlockQuery := .ok 21000000
    queryChunk := fun _ _ => .ok []
    isFinalized := fun _ => .ok false }

/-- Healthy forking environment with a non-empty dispute set in the
window. -/
def envForkDisputes : ChainEnv :=
  { envForkEmpty with
    queryChunk := fun _ _ =>
      .ok [⟨"U", "0xmarket1", "C", [], 900 * 10 ^ 18, false⟩] }

/-- Healthy non-forking environment whose dispute-retrieval stage fails at
its initial block-height query, before any chunk is fetched. -/
def envRetrFail : ChainEnv :=
  { ethRpcUrl := none
    probe := fun _ => some 3
    manifest := .ok ()
    blockNumber := .ok 123
    isForking := .ok false
    disputeBlockQuery := .error "chain query failed"
    queryChunk := fun _ _ => .ok []
    isFinalized := fun _ => .ok false }

/-- Environment whose market-detail lookup succeeds (unfinalized) for every
market except `0xfinErr`, where the contract call throws. -/
def envMarketMixed : ChainEnv :=
  { ethRpcUrl := none
    probe := fun _ => some 8
    manifest := .ok ()
    blockNumber := .ok 21000000
    isForking := .ok false
    disputeBlockQuery := .ok 21000000
    queryChunk := fun _ _ => .ok []
    isFinalized := fun a =>
      if a = "0xfinErr" then .error "call reverted" else .ok false }

/-- A decoded event whose market lookup will succeed in `envMarketMixed`:
bond 2500 REP (2500 · 10¹⁸ wei). -/
def eventOkMarket : DisputeEvent :=
  ⟨"U", "0xaaaa", "C", [], 2500 * 10 ^ 18, false⟩

/-- A decoded event whose market lookup throws in `envMarketMixed`:
bond 900 REP. -/
def eventErrMarket : DisputeEvent :=
  ⟨"U", "0xfinErr", "C", [], 900 * 10 ^ 18, false⟩

/-- No computed risk level maps to the artifact's `unknown`. -/
theorem RiskLevel.toU_ne_unknown (l : RiskLevel) : l.toU ≠ RiskLevelU.unknown := by
  cases l <;> simp [RiskLevel.toU]

/-- Every artifact returned on the non-throwing path of `calculateForkRisk`
has no `error` field and a known risk level. -/
theorem calculateForkRisk_ok_shape (env : ChainEnv) (a : ForkRiskData)
    (h : calculateForkRisk env = .ok a) :
    a.error = none ∧ a.riskLevel ≠ RiskLevelU.unknown := by
  unfold calculateForkRisk at h
  rcases hgw : getWorkingProvider env with e | conn <;> rw [hgw] at h
  · cases h
  rcases hm : env.manifest with e | u <;> rw [hm] at h
  · cases h
  rcases hbn : env.blockNumber with e | bn <;> rw [hbn] at h
  · cases h
  rcases hf : env.isForking with e | b <;> rw [hf] at h
  · cases h
  cases b
  · cases h
    exact ⟨rfl, RiskLevel.toU_ne_unknown _⟩
  · cases h
    exact ⟨rfl, by simp [getForkingResult]⟩

/-- C1: evaluation of the code's `determineRiskLevel` at the claimed
boundary inputs. The code returns low at 10 (claim: moderate), low at
9.999 (claim agrees), moderate at 25 (claim: high), moderate at 74.999
(claim: high), high at exactly 75 (claim: critical), and critical only
above 75 — so each tier of the claimed mapping
(critical iff ≥ 75, high iff 25 ≤ p < 75, moderate iff 10 ≤ p < 25,
low iff p < 10) is shifted one tier up by the code, which compares
against the wrong `RISK_LEVELS` constants and never reads
`RISK_LEVELS.LOW`. -/
theorem determineRiskLevel_boundary_eval :
    determineRiskLevel 10 = .low ∧
    determineRiskLevel (9999 / 1000) = .low ∧
    determineRiskLevel 25 = .moderate ∧
    determineRiskLevel (74999 / 1000) = .moderate ∧
    determineRiskLevel 75 = .high ∧
    determineRiskLevel 80 = .critical := by
  refine ⟨?_, ?_, ?_, ?_, ?_, ?_⟩ <;>
    norm_num [determineRiskLevel, RISK_LEVELS_CRITICAL, RISK_LEVELS_HIGH,
      RISK_LEVELS_MODERATE]

/-- C3: the persisted risk percentage is exactly
`clamp(bond / threshold * 100, 0, 100)` — in particular `0` at bond `0`
and `100` at any bond at or above the threshold — and the success
artifact's `riskPercentage` field is exactly this value at the code's
fixed threshold. -/
theorem riskPercentage_is_clamp (bond T : ℚ) (hbond : 0 ≤ bond) (hT : 0 < T) :
    riskPercentageCalc bond T = clampSpec (bond / T * 100) 0 100 ∧
    (bond = 0 → riskPercentageCalc bond T = 0) ∧
    (T ≤ bond → riskPercentageCalc bond T = 100) ∧
    (∀ env conn bn, (successResult env conn bn).riskPercentage =
      riskPercentageCalc (getLargestDisputeBond (getActiveDisputes env))
        FORK_THRESHOLD_REP) := by
  have hx : 0 ≤ bond / T * 100 := by positivity
  refine ⟨?_, ?_, ?_, fun env conn bn => rfl⟩
  · unfold riskPercentageCalc clampSpec
    split_ifs with h1 h2
    · have hx0 : bond / T * 100 = 0 := le_antisymm h1 hx
      rw [hx0]
      norm_num
    · rw [max_eq_right hx, min_eq_left h2]
    · rw [max_eq_right hx, min_eq_right (le_of_not_le h2)]
  · intro h
    subst h
    unfold riskPercentageCalc
    norm_num
  · intro h
    have h1 : (1 : ℚ) ≤ bond / T := (one_le_div hT).mpr h
    have h100 : (100 : ℚ) ≤ bond / T * 100 := by nlinarith
    unfold riskPercentageCalc
    rw [max_eq_right hx, min_eq_left h100]

/-- C5: the current connection manager never consults the `ETH_RPC_URL`
override: its result is invariant under any change of that variable, and
in `envOverride` — where a healthy, non-placeholder override is
configured — the first public endpoint is used and the override is never
attempted, contradicting the claim (and the README's "Optional Custom
RPC" section, and the earlier revision embedded in the methodology
document, both of which try the override first). -/
theorem override_never_attempted :
    (∀ (env : ChainEnv) (url : Option String),
      getWorkingProvider { env with ethRpcUrl := url } = getWorkingProvider env) ∧
    envOverride.ethRpcUrl = some "https://my-node.example/rpc" ∧
    envOverride.probe "https://my-node.example/rpc" = some 10 ∧
    "https://my-node.example/rpc" ∉ PUBLIC_RPC_ENDPOINTS ∧
    getWorkingProvider envOverride = .ok ⟨"https://eth.llamarpc.com", 10, 0⟩ := by
  refine ⟨fun env url => rfl, rfl, rfl, by decide, rfl⟩

/-- Witness for C3 at bond 150000 and threshold 200000 (the spec's §8
example pair): hypotheses hold and the clamp identity follows. -/
theorem riskPercentage_is_clamp_witness :
    (0 : ℚ) ≤ 150000 ∧ (0 : ℚ) < 200000 ∧
    riskPercentageCalc 150000 200000 = clampSpec (150000 / 200000 * 100) 0 100 := by
  refine ⟨by norm_num, by norm_num, ?_⟩
  exact (riskPercentage_is_clamp 150000 200000 (by norm_num) (by norm_num)).1

/-- C4 (amended): when every public RPC candidate fails its probe, the
persisted artifact is the error artifact for the aggregate message
"All RPC endpoints failed (attempted 4)": riskLevel `unknown`, a
non-empty `error` string that reports the number of candidates attempted,
but `rpcInfo.fallbacksAttempted = 0` (the literal of `getErrorResult`),
and exit code 1. -/
theorem allProbesFail_artifact (env : ChainEnv)
    (hall : ∀ r ∈ PUBLIC_RPC_ENDPOINTS, env.probe r = none) :
    mainRun env = (getErrorResult "All RPC endpoints failed (attempted 4)", 1) ∧
    (mainRun env).1.riskLevel = .unknown ∧
    (mainRun env).1.error = some "All RPC endpoints failed (attempted 4)" ∧
    "All RPC endpoints failed (attempted 4)" ≠ "" ∧
    (mainRun env).1.rpcInfo.fallbacksAttempted = 0 ∧
    (mainRun env).2 = 1 := by
  have h1 := hall "https://eth.llamarpc.com" (by simp [PUBLIC_RPC_ENDPOINTS])
  have h2 := hall "https://main-light.eth.linkpool.io" (by simp [PUBLIC_RPC_ENDPOINTS])
  have h3 := hall "https://ethereum.publicnode.com" (by simp [PUBLIC_RPC_ENDPOINTS])
  have h4 := hall "https://1rpc.io/eth" (by simp [PUBLIC_RPC_ENDPOINTS])
  have hgw : getWorkingProvider env =
      .error "All RPC endpoints failed (attempted 4)" := by
    unfold getWorkingProvider PUBLIC_RPC_ENDPOINTS
    rw [getWorkingProviderAux, h1]
    rw [getWorkingProviderAux, h2]
    rw [getWorkingProviderAux, h3]
    rw [getWorkingProviderAux, h4]
    rfl
  have hmain : mainRun env =
      (getErrorResult "All RPC endpoints failed (attempted 4)", 1) := by
    unfold mainRun calculateForkRisk
    rw [hgw]
  rw [hmain]
  exact ⟨rfl, rfl, rfl, by decide, rfl, rfl⟩

/-- Counterexample for C4 as stated: in `envAllFail` all four candidates
are attempted and fail, yet the persisted artifact's
`rpcInfo.fallbacksAttempted` is 0, not the number of candidates
attempted. -/
theorem allProbesFail_fallbacks_counterexample :
    (mainRun envAllFail).1.rpcInfo.fallbacksAttempted = 0 ∧
    PUBLIC_RPC_ENDPOINTS.length = 4 ∧
    (mainRun envAllFail).1.rpcInfo.fallbacksAttempted ≠ PUBLIC_RPC_ENDPOINTS.length := by
  exact ⟨rfl, rfl, by decide⟩

/-- Witness for the amended C4 at the concrete all-failing environment. -/
theorem allProbesFail_artifact_witness :
    mainRun envAllFail =
      (getErrorResult "All RPC endpoints failed (attempted 4)", 1) ∧
    (mainRun envAllFail).1.riskLevel = .unknown ∧
    (mainRun envAllFail).1.error =
      some "All RPC endpoints failed (attempted 4)" ∧
    (mainRun envAllFail).2 = 1 := by
  obtain ⟨a, b, c, _, _, f⟩ := allProbesFail_artifact envAllFail (fun r _ => rfl)
  exact ⟨a, b, c, f⟩

/-- C2: whenever the connection, manifest and block query succeed and the
universe reports an active fork, the run returns the fixed terminal
artifact — riskPercentage 100, riskLevel critical, and a single synthetic
"FORKING" marker dispute record — and the result is invariant under any
change of the dispute data (chunk queries and market lookups), so
dispute-based scoring is bypassed entirely. -/
theorem forking_short_circuit (env : ChainEnv) (conn : RpcConnection) (bn : ℤ)
    (hconn : getWorkingProvider env = .ok conn)
    (hman : env.manifest = .ok ())
    (hbn : env.blockNumber = .ok bn)
    (hfork : env.isForking = .ok true) :
    calculateForkRisk env = .ok (getForkingResult bn conn) ∧
    mainRun env = (getForkingResult bn conn, 0) ∧
    (getForkingResult bn conn).riskPercentage = 100 ∧
    (getForkingResult bn conn).riskLevel = .critical ∧
    (getForkingResult bn conn).metrics.disputeDetails =
      [{ marketId := "FORKING", title := "Universe is currently forking",
         disputeBondSize := FORK_THRESHOLD_REP, disputeRound := 99,
         daysRemaining := 0 }] ∧
    (∀ q f, calculateForkRisk { env with queryChunk := q, isFinalized := f } =
      calculateForkRisk env) := by
  have hcalc : calculateForkRisk env = .ok (getForkingResult bn conn) := by
    unfold calculateForkRisk
    rw [hconn, hman, hbn, hfork]
  refine ⟨hcalc, ?_, rfl, rfl, rfl, ?_⟩
  · unfold mainRun
    rw [hcalc]
  · intro q f
    have hconn' : getWorkingProvider { env with queryChunk := q, isFinalized := f } =
        .ok conn := hconn
    have hman' : ({ env with queryChunk := q, isFinalized := f } : ChainEnv).manifest =
        .ok () := hman
    have hbn' : ({ env with queryChunk := q, isFinalized := f } : ChainEnv).blockNumber =
        .ok bn := hbn
    have hfork' : ({ env with queryChunk := q, isFinalized := f} : ChainEnv).isForking =
        .ok true := hfork
    have : calculateForkRisk { env with queryChunk := q, isFinalized := f } =
        .ok (getForkingResult bn conn) := by
      unfold calculateForkRisk
      rw [hconn', hman', hbn', hfork']
    rw [this, hcalc]

/-- Witness for C2 at two concrete forking environments, one with an empty
and one with a non-empty dispute set in the query window. -/
theorem forking_short_circuit_witness :
    calculateForkRisk envForkEmpty =
      .ok (getForkingResult 21000000 ⟨"https://eth.llamarpc.com", 5, 0⟩) ∧
    calculateForkRisk envForkDisputes =
      .ok (getForkingResult 21000000 ⟨"https://eth.llamarpc.com", 5, 0⟩) ∧
    (getForkingResult 21000000 ⟨"https://eth.llamarpc.com", 5, 0⟩).riskPercentage = 100 ∧
    (getForkingResult 21000000 ⟨"https://eth.llamarpc.com", 5, 0⟩).riskLevel = .critical := by
  refine ⟨?_, ?_, ?_, ?_⟩
  · exact (forking_short_circuit envForkEmpty ⟨"https://eth.llamarpc.com", 5, 0⟩
      21000000 rfl rfl rfl rfl).1
  · exact (forking_short_circuit envForkDisputes ⟨"https://eth.llamarpc.com", 5, 0⟩
      21000000 rfl rfl rfl rfl).1
  · exact (forking_short_circuit envForkEmpty ⟨"https://eth.llamarpc.com", 5, 0⟩
      21000000 rfl rfl rfl rfl).2.2.1
  · exact (forking_short_circuit envForkEmpty ⟨"https://eth.llamarpc.com", 5, 0⟩
      21000000 rfl rfl rfl rfl).2.2.2.1

/-- C9: in every artifact the program can produce — success, forking
short-circuit, or error variant — the `error` field is present exactly
when the risk level is `unknown`. -/
theorem error_present_iff_unknown (env : ChainEnv) :
    (mainRun env).1.error ≠ none ↔ (mainRun env).1.riskLevel = .unknown := by
  unfold mainRun
  rcases h : calculateForkRisk env with e | a
  · simp [getErrorResult]
  · obtain ⟨he, hl⟩ := calculateForkRisk_ok_shape env a h
    simp [he, hl]

/-- C10: if the dispute-retrieval stage fails at its initial block-height
query (before any chunk is fetched) while everything else succeeds, no
error artifact is produced: `getActiveDisputes` returns `[]`, the largest
bond is 0, and the run completes as a success artifact with
riskPercentage 0, riskLevel low, and exit code 0. -/
theorem retrieval_failure_low_risk (env : ChainEnv) (conn : RpcConnection)
    (bn : ℤ) (msg : String)
    (hconn : getWorkingProvider env = .ok conn)
    (hman : env.manifest = .ok ())
    (hbn : env.blockNumber = .ok bn)
    (hfork : env.isForking = .ok false)
    (hq : env.disputeBlockQuery = .error msg) :
    getActiveDisputes env = [] ∧
    getLargestDisputeBond (getActiveDisputes env) = 0 ∧
    mainRun env = (successResult env conn bn, 0) ∧
    (successResult env conn bn).riskPercentage = 0 ∧
    (successResult env conn bn).riskLevel = .low ∧
    (successResult env conn bn).error = none ∧
    (mainRun env).2 = 0 := by
  have hga : getActiveDisputes env = [] := by
    unfold getActiveDisputes
    rw [hq]
  have hcalc : calculateForkRisk env = .ok (successResult env conn bn) := by
    unfold calculateForkRisk
    rw [hconn, hman, hbn, hfork]
  have hmain : mainRun env = (successResult env conn bn, 0) := by
    unfold mainRun
    rw [hcalc]
  have hlargest : getLargestDisputeBond (getActiveDisputes env) = 0 := by
    rw [hga]
    rfl
  have hpct : getLargestDisputeBond (getActiveDisputes env) /
      FORK_THRESHOLD_REP * 100 = 0 := by
    rw [hlargest, zero_div, zero_mul]
  refine ⟨hga, hlargest, hmain, ?_, ?_, rfl, ?_⟩
  · show min 100 (max 0 (getLargestDisputeBond (getActiveDisputes env) /
      FORK_THRESHOLD_REP * 100)) = 0
    rw [hpct]
    norm_num
  · show (determineRiskLevel (getLargestDisputeBond (getActiveDisputes env) /
      FORK_THRESHOLD_REP * 100)).toU = RiskLevelU.low
    rw [hpct]
    norm_num [determineRiskLevel, RISK_LEVELS_CRITICAL, RISK_LEVELS_HIGH,
      RISK_LEVELS_MODERATE, RiskLevel.toU]
  · rw [hmain]

/-- Witness for C10 at the concrete environment whose block-height query
for the dispute window throws. -/
theorem retrieval_failure_low_risk_witness :
    getActiveDisputes envRetrFail = [] ∧
    mainRun envRetrFail =
      (successResult envRetrFail ⟨"https://eth.llamarpc.com", 3, 0⟩ 123, 0) ∧
    (successResult envRetrFail ⟨"https://eth.llamarpc.com", 3, 0⟩ 123).riskPercentage = 0 ∧
    (successResult envRetrFail ⟨"https://eth.llamarpc.com", 3, 0⟩ 123).riskLevel = .low := by
  obtain ⟨a, _, c, d, e, _, _⟩ := retrieval_failure_low_risk envRetrFail
    ⟨"https://eth.llamarpc.com", 3, 0⟩ 123 "chain query failed" rfl rfl rfl rfl rfl
  exact ⟨a, c, d, e⟩

/-- The aggregation stage returns a list sorted descending by bond size. -/
theorem getActiveDisputes_sorted (env : ChainEnv) :
    List.Sorted bondGE (getActiveDisputes env) := by
  unfold getActiveDisputes
  rcases env.disputeBlockQuery with e | currentBlock
  · exact List.sorted_nil
  · exact (List.sorted_insertionSort bondGE _).sublist (List.take_sublist 10 _)

/-- The aggregation stage retains at most 10 records. -/
theorem getActiveDisputes_length_le (env : ChainEnv) :
    (getActiveDisputes env).length ≤ 10 := by
  unfold getActiveDisputes
  rcases env.disputeBlockQuery with e | currentBlock
  · simp
  · exact List.length_take_le 10 _

/-- C6: every success (non-forking, non-error) artifact has its
`disputeDetails` sorted descending by bond size and of length at most 5 —
whatever the dispute data, in particular when more than 5 qualify — while
the aggregation stage itself retains at most 10 records. -/
theorem disputeDetails_sorted_capped (env : ChainEnv) (conn : RpcConnection)
    (bn : ℤ) :
    List.Sorted bondGE (successResult env conn bn).metrics.disputeDetails ∧
    (successResult env conn bn).metrics.disputeDetails.length ≤ 5 ∧
    (successResult env conn bn).metrics.disputeDetails =
      (getActiveDisputes env).take 5 ∧
    (getActiveDisputes env).length ≤ 10 := by
  refine ⟨?_, ?_, rfl, getActiveDisputes_length_le env⟩
  · exact (getActiveDisputes_sorted env).sublist (List.take_sublist 5 _)
  · exact List.length_take_le 5 _

/-- The retrieval fold, started from any accumulator, appends exactly the
chunkwise contributions: each chunk's outcome is handled independently of
the others. -/
theorem foldl_eq_collectChunks (f : ℤ → Except String (List DisputeEvent)) :
    ∀ (starts : List ℤ) (acc : List DisputeEvent),
      starts.foldl
        (fun a s => match f s with | .ok es => a ++ es | .error _ => a) acc =
      acc ++ collectChunks f starts
  | [], acc => by simp [collectChunks]
  | s :: rest, acc => by
      rw [List.foldl_cons, collectChunks]
      cases h : f s <;>
        simp only [h] <;>
        rw [foldl_eq_collectChunks f rest] <;>
        simp [List.append_assoc]

/-- Lemma: `collectedEvents` is the flattening of the per-chunk contributions. -/
theorem collectedEvents_eq_collectChunks
    (q : ℤ → ℤ → Except String (List DisputeEvent)) (currentBlock : ℤ) :
    collectedEvents q currentBlock =
      collectChunks (fun s => q s (min (s + 1000 - 1) currentBlock))
        (chunkStarts (currentBlock - 7 * 7200) currentBlock) := by
  unfold collectedEvents
  rw [foldl_eq_collectChunks]
  simp

/-- Replacing every failing chunk by an empty successful one does not
change the collected contributions. -/
theorem collectChunks_neutralize
    (f : ℤ → Except String (List DisputeEvent)) :
    ∀ starts : List ℤ,
      collectChunks
        (fun s => match f s with | .ok es => .ok es | .error _ => .ok []) starts =
      collectChunks f starts
  | [] => rfl
  | s :: rest => by
      rw [collectChunks, collectChunks, collectChunks_neutralize f rest]
      cases h : f s <;> simp [h]

/-- The dispute list is unchanged when failing chunks are neutralized. -/
theorem getActiveDisputes_neutralize (env : ChainEnv) :
    getActiveDisputes (neutralizeChunks env) = getActiveDisputes env := by
  unfold getActiveDisputes
  have hbq : (neutralizeChunks env).disputeBlockQuery = env.disputeBlockQuery := rfl
  rw [hbq]
  rcases env.disputeBlockQuery with e | currentBlock
  · rfl
  · have hev : collectedEvents (neutralizeChunks env).queryChunk currentBlock =
        collectedEvents env.queryChunk currentBlock := by
      rw [collectedEvents_eq_collectChunks, collectedEvents_eq_collectChunks]
      have hfun : (fun s => (neutralizeChunks env).queryChunk s (min (s + 1000 - 1) currentBlock)) =
          fun s => match env.queryChunk s (min (s + 1000 - 1) currentBlock) with
            | .ok es => .ok es
            | .error _ => .ok [] := rfl
      rw [hfun]
      exact collectChunks_neutralize
        (fun s => env.queryChunk s (min (s + 1000 - 1) currentBlock)) _
    have hpe : processEvent (neutralizeChunks env) = processEvent env := rfl
    dsimp only
    rw [hev, hpe]

/-- The whole run — artifact and exit code — is unchanged when failing
chunks are neutralized. -/
theorem mainRun_neutralize (env : ChainEnv) :
    mainRun (neutralizeChunks env) = mainRun env := by
  have hsucc : ∀ conn bn,
      successResult (neutralizeChunks env) conn bn = successResult env conn bn := by
    intro conn bn
    unfold successResult
    rw [getActiveDisputes_neutralize]
  have hcalc : calculateForkRisk (neutralizeChunks env) = calculateForkRisk env := by
    unfold calculateForkRisk
    have e1 : getWorkingProvider (neutralizeChunks env) = getWorkingProvider env := rfl
    have e2 : (neutralizeChunks env).manifest = env.manifest := rfl
    have e3 : (neutralizeChunks env).blockNumber = env.blockNumber := rfl
    have e4 : (neutralizeChunks env).isForking = env.isForking := rfl
    rw [e1, e2, e3, e4]
    rcases getWorkingProvider env with e | conn
    · rfl
    rcases env.manifest with e | u
    · rfl
    rcases env.blockNumber with e | bn
    · rfl
    rcases env.isForking with e | b
    · rfl
    cases b
    · dsimp only
      rw [hsucc]
    · rfl
  unfold mainRun
  rw [hcalc]

/-- C7: chunk failures during log retrieval are contained. The collected
events are exactly the independent chunkwise contributions — a throwing
chunk contributes nothing, every succeeding chunk contributes its events
(so the final dispute list still reflects the succeeding chunks) — and
replacing any set of failing chunks by empty successful ones changes
neither the dispute list, nor the artifact, nor the process exit code. -/
theorem chunk_failure_tolerated :
    (∀ (q : ℤ → ℤ → Except String (List DisputeEvent)) (currentBlock : ℤ),
      collectedEvents q currentBlock =
        collectChunks (fun s => q s (min (s + 1000 - 1) currentBlock))
          (chunkStarts (currentBlock - 7 * 7200) currentBlock)) ∧
    (∀ env : ChainEnv,
      getActiveDisputes (neutralizeChunks env) = getActiveDisputes env) ∧
    (∀ env : ChainEnv, mainRun (neutralizeChunks env) = mainRun env) ∧
    (∀ env : ChainEnv, (mainRun (neutralizeChunks env)).2 = (mainRun env).2) :=
  ⟨collectedEvents_eq_collectChunks, getActiveDisputes_neutralize,
    mainRun_neutralize, fun env => by rw [mainRun_neutralize]⟩

/-- Casting a positive rational to the reals does not change its ceiling
base-2 logarithm index. -/
theorem int_clog_two_ratCast (q : ℚ) (hq : 0 < q) :
    Int.clog 2 ((q : ℝ)) = Int.clog 2 q := by
  have hqR : (0 : ℝ) < (q : ℝ) := by exact_mod_cast hq
  have hb : (1 : ℕ) < 2 := one_lt_two
  apply le_antisymm
  · rw [← Int.le_zpow_iff_clog_le hb hqR]
    have h1 : q ≤ (2 : ℚ) ^ Int.clog 2 q := by
      have := Int.self_le_zpow_clog hb q
      simpa using this
    calc (q : ℝ) ≤ (((2 : ℚ) ^ Int.clog 2 q : ℚ) : ℝ) := by exact_mod_cast h1
      _ = ((2 : ℕ) : ℝ) ^ Int.clog 2 q := by push_cast; norm_num
  · rw [← Int.le_zpow_iff_clog_le hb hq]
    have h1 : (q : ℝ) ≤ ((2 : ℕ) : ℝ) ^ Int.clog 2 ((q : ℝ)) :=
      Int.self_le_zpow_clog hb (q : ℝ)
    have h2 : (q : ℝ) ≤ (((2 : ℚ) ^ Int.clog 2 ((q : ℝ)) : ℚ) : ℝ) := by
      push_cast
      convert h1 using 2
    exact_mod_cast h2

/-- For positive rationals, the exact `Int.clog` used in the embedding is
the ceiling of the real base-2 logarithm — i.e. `Math.ceil(Math.log2 _)`
computed exactly. -/
theorem ceil_logb_two_rat (q : ℚ) (hq : 0 < q) :
    ⌈Real.logb 2 ((q : ℝ))⌉ = Int.clog 2 q := by
  have hqR : (0 : ℝ) ≤ (q : ℝ) := by positivity
  rw [← int_clog_two_ratCast q hq]
  have := Real.ceil_logb_natCast (b := 2) (r := (q : ℝ)) hqR
  simpa using this

/-- C8: for a decoded dispute record whose market lookup succeeds on an
unfinalized market, the estimated round is exactly
`max(1, ceil(log2(bondSizeRep / 625)))` (real logarithm, ceiling); if the
lookup throws, the record is not discarded and the default round 1 is
substituted. -/
theorem dispute_round_heuristic (env : ChainEnv) (e : DisputeEvent)
    (hpos : 0 < e.bondSizeWei) :
    (env.isFinalized e.marketAddress = .ok false →
      processEvent env e = some
        { marketId := e.marketAddress
          title := "Market " ++ e.marketAddress.take 10 ++ "..."
          disputeBondSize := (e.bondSizeWei : ℚ) / 10 ^ 18
          disputeRound :=
            max 1 ⌈Real.logb 2 ((e.bondSizeWei : ℝ) / 10 ^ 18 / 625)⌉
          daysRemaining := 7 }) ∧
    (∀ msg, env.isFinalized e.marketAddress = .error msg →
      processEvent env e = some
        { marketId := e.marketAddress
          title := "Market " ++ e.marketAddress.take 10 ++ "..."
          disputeBondSize := (e.bondSizeWei : ℚ) / 10 ^ 18
          disputeRound := 1
          daysRemaining := 7 }) := by
  have hposQ : (0 : ℚ) < (e.bondSizeWei : ℚ) := by exact_mod_cast hpos
  have hq : (0 : ℚ) < (e.bondSizeWei : ℚ) / 10 ^ 18 / 625 := by positivity
  have hround : max 1 (Int.clog 2 ((e.bondSizeWei : ℚ) / 10 ^ 18 / 625)) =
      max 1 ⌈Real.logb 2 ((e.bondSizeWei : ℝ) / 10 ^ 18 / 625)⌉ := by
    have hcast : ((e.bondSizeWei : ℝ) / 10 ^ 18 / 625) =
        (((e.bondSizeWei : ℚ) / 10 ^ 18 / 625 : ℚ) : ℝ) := by
      push_cast
      ring
    rw [hcast, ceil_logb_two_rat _ hq]
  constructor
  · intro h
    simp only [processEvent, h]
    rw [← hround]
  · intro msg h
    simp only [processEvent, h]

/-- Witness for C8 at two concrete events in `envMarketMixed`: one whose
market lookup succeeds unfinalized (bond 2500 REP) and one whose lookup
throws (bond 900 REP, default round 1). -/
theorem dispute_round_heuristic_witness :
    0 < eventOkMarket.bondSizeWei ∧
    0 < eventErrMarket.bondSizeWei ∧
    processEvent envMarketMixed eventOkMarket = some
      { marketId := eventOkMarket.marketAddress
        title := "Market " ++ eventOkMarket.marketAddress.take 10 ++ "..."
        disputeBondSize := (eventOkMarket.bondSizeWei : ℚ) / 10 ^ 18
        disputeRound :=
          max 1 ⌈Real.logb 2 ((eventOkMarket.bondSizeWei : ℝ) / 10 ^ 18 / 625)⌉
        daysRemaining := 7 } ∧
    processEvent envMarketMixed eventErrMarket = some
      { marketId := eventErrMarket.marketAddress
        title := "Market " ++ eventErrMarket.marketAddress.take 10 ++ "..."
        disputeBondSize := (eventErrMarket.bondSizeWei : ℚ) / 10 ^ 18
        disputeRound := 1
        daysRemaining := 7 } := by
  have h1 : 0 < eventOkMarket.bondSizeWei := by norm_num [eventOkMarket]
  have h2 : 0 < eventErrMarket.bondSizeWei := by norm_num [eventErrMarket]
  refine ⟨h1, h2, ?_, ?_⟩
  · exact (dispute_round_heuristic envMarketMixed eventOkMarket h1).1 rfl
  · exact (dispute_round_heuristic envMarketMixed eventErrMarket h2).2
      "call reverted" rfl
